import Mathlib

set_option maxRecDepth 8192

/-!
Verification development for the `llm-research-agent` repository.

The Python sources are shallowly embedded as Lean functions:

* `src/agent/tools.py`     — the six stage functions (`topic_breakdown`,
  `query_expansion`, `search`, `summarize_content`, `critique_summary`,
  `improve_summary`) and the helper `extract_title_and_link`;
* `src/agent/research_agent.py` — `ResearchAgent.research`, embedded as a
  state-passing function over the run cache;
* `src/utils/helpers.py`   — the duplicated `extract_title_and_link`.

External collaborators (the Together completion client and the you.com
search endpoint) are modelled as oracle fields of an `Env` record: the
completion client is `Option (String → Except Unit String)` (`none` = client
not configured, `Except.error` = the call raised) and the search endpoint is
`String → SearchResp` (per-query: a JSON result list, a non-2xx response, or
a raised exception).  Python's regular expressions used by the sources are
embedded as explicit character-list scanners with the same backtracking
semantics.
-/

/-! ## Python string helpers -/

/-- Whitespace set of Python's `str.strip()` and of `\s`/`\S` in the `re`
patterns used by the sources (str patterns are Unicode): the ASCII
whitespace (tab, LF, VT, FF, CR, space), the separators U+001C-U+001F,
U+0085 (NEL), U+00A0 (NBSP), U+1680 (Ogham space), U+2000-U+200A
(typographic spaces), U+2028/U+2029 (line/paragraph separators), U+202F,
U+205F and U+3000 -- the characters for which `str.isspace()` holds. -/
def isPySpace (c : Char) : Bool :=
  c = ' ' || c = '\t' || c = '\n' || c = '\r' || c = '\x0b' || c = '\x0c' ||
  (0x1c ≤ c.toNat && c.toNat ≤ 0x1f) || c.toNat = 0x85 || c.toNat = 0xa0 ||
  c.toNat = 0x1680 || (0x2000 ≤ c.toNat && c.toNat ≤ 0x200a) ||
  c.toNat = 0x2028 || c.toNat = 0x2029 || c.toNat = 0x202f ||
  c.toNat = 0x205f || c.toNat = 0x3000

/-- Python `str.strip()`: drop leading and trailing whitespace. -/
def pyStrip (s : String) : String :=
  String.mk (((s.data.dropWhile isPySpace).reverse.dropWhile isPySpace).reverse)

/-- A single apostrophe character, used to splice the sources' literal texts
without bare apostrophes in string literals. -/
def apos : String := String.mk [Char.ofNat 39]

/-- Python `str.lower()` (ASCII behaviour). -/
def pyLower (s : String) : String := String.mk (s.data.map Char.toLower)

/-- Python `pat in s` substring test. -/
def pyContains (s pat : String) : Prop := pat.data <:+: s.data

instance (s pat : String) : Decidable (pyContains s pat) :=
  List.decidableInfix pat.data s.data

/-- Split a character list at every occurrence of `sep` (Python
`str.split(sep)` for a one-character separator; the empty string splits to
`[""]`). -/
def splitOnChar (sep : Char) : List Char → List (List Char)
  | [] => [[]]
  | c :: rest =>
    if c = sep then [] :: splitOnChar sep rest
    else
      match splitOnChar sep rest with
      | h :: t => (c :: h) :: t
      | [] => [[c]]

/-- Python `s.split('\n')`. -/
def pySplitNewline (s : String) : List String :=
  (splitOnChar '\n' s.data).map String.mk

/-- Python `s.startswith(pat)`. -/
def pyStartsWith (s pat : String) : Bool := decide (pat.data <+: s.data)

/-! ## The regex `(.*?) - (https?://\S+)` used by both copies of
`extract_title_and_link` and by the reference loop of
`ResearchAgent.research`. -/

/-- The literal three-character separator " - " of the pattern. -/
def sepChars : List Char := [' ', '-', ' ']

/-- Characters of the scheme alternative `https://`. -/
def httpsChars : List Char := ['h', 't', 't', 'p', 's', ':', '/', '/']

/-- Characters of the scheme alternative `http://`. -/
def httpChars : List Char := ['h', 't', 't', 'p', ':', '/', '/']

/-- Match `p ++ \S+` at the front of `r` (greedy `\S+`): the matched
characters, or `none` when `p` is not a prefix or no non-space character
follows it. -/
def urlTry (p r : List Char) : Option (List Char) :=
  if r.take p.length = p then
    let run := (r.drop p.length).takeWhile (fun c => !isPySpace c)
    if run = [] then none else some (p ++ run)
  else none

/-- Match `https?://\S+` at the front of `r`: the regex engine tries the
greedy `s?` first (`https://`), then backtracks to `http://`. -/
def urlMatch (r : List Char) : Option (List Char) :=
  match urlTry httpsChars r with
  | some u => some u
  | none => urlTry httpChars r

/-- Scan for the earliest split point realising `(.*?) - (https?://\S+)`:
the lazy group `(.*?)` tries each prefix in increasing length, succeeding at
the first position where " - " followed by a url match begins.  Without
`re.DOTALL` the dot does not match a newline, so the group cannot extend
across `'\n'`: a newline reached before a successful split makes the whole
match fail.  (In the separator branch the consumed character is a space, so
no newline check is needed there.)  `acc` is the prefix consumed so far. -/
def matchFrom : List Char → List Char → Option (List Char × List Char)
  | _, [] => none
  | acc, c :: rest =>
    if (c :: rest).take 3 = sepChars then
      match urlMatch ((c :: rest).drop 3) with
      | some u => some (acc, u)
      | none => matchFrom (acc ++ [c]) rest
    else if c = '\n' then none
    else matchFrom (acc ++ [c]) rest

/-- Embedding of `re.match(r'(.*?) - (https?://\S+)', s)`: the pair of
captured groups, or `none` when the pattern does not match. -/
def reMatchTitleUrl (s : String) : Option (String × String) :=
  match matchFrom [] s.data with
  | some (t, u) => some (String.mk t, String.mk u)
  | none => none

/-! ## The two duplicated extraction helpers -/

/-- Embedding of `extract_title_and_link` from `src/agent/tools.py`: on a
regex match return the two groups, otherwise return `(result, "#")`. -/
def extract_title_and_link (result : String) : String × String :=
  match reMatchTitleUrl result with
  | some (t, u) => (t, u)
  | none => (result, "#")

/-- Embedding of `extract_title_and_link` from `src/utils/helpers.py`: on a
regex match return the two groups, otherwise return `(None, None)`. -/
def helpers_extract_title_and_link (result : String) :
    Option String × Option String :=
  match reMatchTitleUrl result with
  | some (t, u) => (some t, some u)
  | none => (none, none)

/-- A url fully matching `https?://\S+`: no whitespace anywhere, one of the
two scheme prefixes, and at least one character after the scheme. -/
def validUrl (u : String) : Bool :=
  u.data.all (fun c => !isPySpace c) &&
  ((u.data.take 8 == httpsChars && decide (8 < u.data.length)) ||
   (u.data.take 7 == httpChars && decide (7 < u.data.length)))

example : reMatchTitleUrl "A - https://x.test/1" = some ("A", "https://x.test/1") := by decide
example : reMatchTitleUrl "B" = none := by decide
example : extract_title_and_link "No link here" = ("No link here", "#") := by decide
example : reMatchTitleUrl "x - - http://a" = some ("x -", "http://a") := by decide
example : reMatchTitleUrl "A\nB - https://x.test/1" = none := by decide
example : validUrl "https://x.test/1" = true := by decide
example : validUrl "http://a b" = false := by decide

/-! ## Model-text parsers of the decompose and expand stages -/

/-- Close a pending `\*\*(.*?)\*\*` match: lazily look for the next `**`,
failing on a newline (`.` does not match `\n`).  Returns the captured group
and the remainder after the closing `**`. -/
def findClose : List Char → Option (List Char × List Char)
  | '*' :: '*' :: rest => some ([], rest)
  | c :: rest =>
    if c = '\n' then none
    else (findClose rest).map (fun p => (c :: p.1, p.2))
  | [] => none

/-- Try to match `\*\*(.*?)\*\*` at the head of `l`. -/
def boldAt (l : List Char) : Option (List Char × List Char) :=
  match l with
  | '*' :: '*' :: rest => findClose rest
  | _ => none

/-- One scanning pass of `re.findall(r'\*\*(.*?)\*\*', text)`: on a failed
match the scan advances one character; on a success it resumes after the
match.  The fuel is the length of the remaining text, which bounds the
number of steps since every step consumes at least one character. -/
def findBoldAux : Nat → List Char → List (List Char)
  | 0, _ => []
  | _ + 1, [] => []
  | fuel + 1, c :: rest =>
    match boldAt (c :: rest) with
    | some (g, rest') => g :: findBoldAux fuel rest'
    | none => findBoldAux fuel rest

/-- Embedding of `re.findall(r'\*\*(.*?)\*\*', text)`. -/
def findBold (l : List Char) : List (List Char) := findBoldAux l.length l

/-- One scanning pass of `re.findall(r'- (.*?)(?:\n|$)', text)`: at a
`"- "` the lazy group captures up to the next newline (consumed) or the end
of the text; otherwise the scan advances one character. -/
def dashAux : Nat → List Char → List (List Char)
  | 0, _ => []
  | _ + 1, [] => []
  | fuel + 1, '-' :: ' ' :: rest =>
    let item := rest.takeWhile (fun c => c ≠ '\n')
    let rest' := rest.drop item.length
    match rest' with
    | '\n' :: r2 => item :: dashAux fuel r2
    | _ => item :: dashAux fuel rest'
  | fuel + 1, _ :: rest => dashAux fuel rest

/-- Embedding of `re.findall(r'- (.*?)(?:\n|$)', text)`. -/
def findDashItems (l : List Char) : List (List Char) := dashAux l.length l

/-! ## External collaborators as oracles -/

/-- One entry of a search response; `item.get('title', '')` and
`item.get('url', '')` make a missing field indistinguishable from `""`. -/
structure SearchItem where
  title : String
  url : String

/-- Outcome of one `requests.get` against the you.com search endpoint:
a 200 response whose JSON carries `results` (`title`/`url` default to `""`
when absent), a non-2xx response (skipped), or a raised exception (aborts
the query loop). -/
inductive SearchResp where
  | ok (items : List SearchItem)
  | non200
  | err

/-- The process environment of one run: the Together completion client
(`none` when `TOGETHER_API_KEY` is absent or the import failed; the function
maps a prompt to the response text or a raised exception), whether
`YOU_API_KEY` is set, and the search endpoint. -/
structure Env where
  complete : Option (String → Except Unit String)
  youApiKey : Bool
  searchOracle : String → SearchResp

/-! ## Stage 1: `topic_breakdown` (tools.py lines 50-81) -/

/-- Fallback subtopic list of `topic_breakdown`. -/
def tbFallback : List String :=
  ["Intelligent Tutoring Systems (ITS)",
   "Personalized Learning",
   "Automated Grading",
   "Natural Language Processing (NLP) in Education",
   "Virtual Learning Environments (VLEs)"]

/-- Prompt of `topic_breakdown`. -/
def tbPrompt (topic : String) : String :=
  "Break down the following research topic into smaller, more focused subtopics:\n\n" ++ topic

/-- Embedding of `topic_breakdown`: with a client, extract the bolded
phrases from the response, strip them, drop empties, and fall back when the
call raises or nothing remains; without a client, fall back. -/
def topic_breakdown (env : Env) (topic : String) : List String :=
  match env.complete with
  | none => tbFallback
  | some f =>
    match f (tbPrompt topic) with
    | Except.error _ => tbFallback
    | Except.ok txt =>
      let result :=
        ((findBold txt.data).map (fun l => pyStrip (String.mk l))).filter
          (fun s => s ≠ "")
      if result = [] then tbFallback else result

/-! ## Stage 2: `query_expansion` (tools.py lines 84-137) -/

/-- Fallback query list of `query_expansion` (ten entries). -/
def qeFallback : List String :=
  ["machine learning engineer skills",
   "machine learning career path",
   "ML engineer vs data scientist",
   "machine learning programming languages",
   "machine learning projects portfolio",
   "machine learning engineer salary",
   "machine learning certifications",
   "machine learning job requirements",
   "machine learning engineer interview questions",
   "how to become ML engineer without degree"]

/-- Prompt of `query_expansion` for one subtopic (the Python triple-quoted
f-string keeps the sixteen-space indentation of its continuation lines). -/
def qePrompt (subtopic : String) : String :=
  "Generate related keywords, synonyms, and phrases for the following subtopic: " ++ subtopic ++
  "\n                Please format your response as a simple list with one item per line, starting each line with a dash (-).\n                For example:\n                - keyword 1\n                - keyword 2\n                - phrase 1\n                "

/-- Keywords gathered from one completion response: the dash-prefixed items,
or — when there are none — the non-empty stripped lines not starting with
`#`; the gathered items are stripped and empties dropped (the list
comprehension `[keyword.strip() for keyword in keywords if keyword.strip()]`). -/
def qeKeywords (txt : String) : List String :=
  let keywords := (findDashItems txt.data).map String.mk
  let keywords :=
    if keywords = [] then
      ((pySplitNewline txt).map pyStrip).filter
        (fun l => l ≠ "" && !(pyStartsWith l "#"))
    else keywords
  (keywords.map pyStrip).filter (fun s => s ≠ "")

/-- The accumulation loop of `query_expansion`: one completion call per
subtopic; a raised call aborts the whole `try` block. -/
def qeLoop (f : String → Except Unit String) :
    List String → Except Unit (List String)
  | [] => Except.ok []
  | s :: rest =>
    match f (qePrompt s) with
    | Except.error e => Except.error e
    | Except.ok txt =>
      match qeLoop f rest with
      | Except.error e => Except.error e
      | Except.ok acc => Except.ok (qeKeywords txt ++ acc)

/-- Embedding of `query_expansion`: with a client, accumulate keywords over
all subtopics and return the first 10 when any were found; on a raised call,
an empty accumulation, or no client, return the fallback list. -/
def query_expansion (env : Env) (subtopics : List String) : List String :=
  match env.complete with
  | none => qeFallback
  | some f =>
    match qeLoop f subtopics with
    | Except.error _ => qeFallback
    | Except.ok expanded_queries =>
      if expanded_queries = [] then qeFallback else expanded_queries.take 10

example : qeKeywords "- a\n- b\nplain" = ["a", "b"] := by decide
example : qeKeywords "x\n# comment\n y " = ["x", "y"] := by decide
example : findBold "a **bold** b **c\nd** e".data = [['b','o','l','d']] := by decide

/-! ## Stage 3: `search` (tools.py lines 140-183) -/

/-- The phrase whose absence triggers insertion of the hardcoded query. -/
def mlPhrase : String := "machine learning engineer"

/-- The hardcoded query inserted at index 0 "to ensure relevance". -/
def mlTopicQuery : String := "how to become a machine learning engineer"

/-- The `queries_to_use` list of `search`: the first 5 queries, with the
hardcoded topic query inserted in front when `"machine learning engineer"`
does not occur in the lowercased space-join of those queries. -/
def queriesToUse (queries : List String) : List String :=
  let q5 := queries.take 5
  if pyContains (pyLower (String.intercalate " " q5)) mlPhrase then q5
  else mlTopicQuery :: q5

/-- Formatting of one kept search item: `f"{title} - {url}"`. -/
def formatItem (it : SearchItem) : String := it.title ++ " - " ++ it.url

/-- The result lines contributed by one query: the top 3 items of a 200
response, dropping items whose title or url is missing (empty); a non-2xx
response or a raised call contributes nothing. -/
def perQueryResults (oracle : String → SearchResp) (q : String) : List String :=
  match oracle q with
  | SearchResp.ok items =>
    ((items.take 3).filter (fun it => it.title ≠ "" && it.url ≠ "")).map formatItem
  | SearchResp.non200 => []
  | SearchResp.err => []

/-- The query loop of `search`: results accumulate in order; a non-2xx
response is skipped; a raised call aborts the loop (the surrounding `try`),
keeping the results accumulated so far. -/
def searchLoop (oracle : String → SearchResp) : List String → List String
  | [] => []
  | q :: rest =>
    match oracle q with
    | SearchResp.ok items =>
      ((items.take 3).filter (fun it => it.title ≠ "" && it.url ≠ "")).map formatItem
        ++ searchLoop oracle rest
    | SearchResp.non200 => searchLoop oracle rest
    | SearchResp.err => []

/-- The queries actually issued to the search endpoint by the loop: all of
them in order, cut off just after the first one whose call raises. -/
def searchCalls (oracle : String → SearchResp) : List String → List String
  | [] => []
  | q :: rest =>
    match oracle q with
    | SearchResp.err => [q]
    | _ => q :: searchCalls oracle rest

/-- Results accumulated by `search` before the fallback check: empty when
`YOU_API_KEY` is not set. -/
def rawSearchResults (env : Env) (queries : List String) : List String :=
  if env.youApiKey then searchLoop env.searchOracle (queriesToUse queries) else []

/-- Fallback result set of `search` (five entries). -/
def searchFallback : List String :=
  ["How to Become a Machine Learning Engineer - Coursera - https://www.coursera.org/articles/machine-learning-engineer",
   "How to Become a Machine Learning Engineer in 2023 - LearnDataSci - https://www.learndatasci.com/become-machine-learning-engineer/",
   "Machine Learning Engineer: Career Path, Salary & Job Description - Springboard - https://www.springboard.com/blog/data-science/machine-learning-engineer-career-guide/",
   "How to Become a Machine Learning Engineer - Berkeley Boot Camps - https://bootcamp.berkeley.edu/blog/how-to-become-a-machine-learning-engineer/",
   "Machine Learning Engineer Career Path: Skills, Roles & Responsibilities - Simplilearn - https://www.simplilearn.com/machine-learning-engineer-career-path-article"]

/-- Embedding of `search`: empty query list short-circuits to `[]`; zero
accumulated results are replaced by the fallback set; the result is
truncated to `max_results` (default 10 at the call site). -/
def search (env : Env) (queries : List String) (max_results : Nat) : List String :=
  if queries = [] then []
  else
    let results := rawSearchResults env queries
    let results := if results = [] then searchFallback else results
    results.take max_results

/-- The queries `search` issues to the external endpoint: none for an empty
input list or without `YOU_API_KEY`. -/
def searchCallsMade (env : Env) (queries : List String) : List String :=
  if queries = [] then []
  else if env.youApiKey then searchCalls env.searchOracle (queriesToUse queries)
  else []

/-! ## Stage 4: `summarize_content` (tools.py lines 186-264) -/

/-- Sentinel returned on empty input. -/
def noResultsSentinel : String := "No search results to summarize."

/-- Line list of the fallback summary text (triple-quoted literal: leading
and trailing newline included). -/
def summarizeFallbackLines : List String :=
  ["",
   "Becoming a Machine Learning Engineer requires a combination of technical skills, education, and practical experience. Here" ++ apos ++ "s a comprehensive guide:",
   "",
   "**Required Skills and Knowledge:**",
   "- Strong programming skills in Python, R, or Java",
   "- Solid understanding of mathematics, particularly linear algebra, calculus, and statistics",
   "- Proficiency in machine learning frameworks like TensorFlow, PyTorch, or scikit-learn",
   "- Knowledge of data structures and algorithms",
   "- Experience with data preprocessing and feature engineering",
   "- Understanding of neural networks and deep learning concepts",
   "",
   "**Education and Background:**",
   "- A bachelor" ++ apos ++ "s degree in Computer Science, Mathematics, Statistics, or related field is typically required",
   "- Many positions prefer a master" ++ apos ++ "s degree or Ph.D., especially for research-oriented roles",
   "- Relevant certifications from platforms like Coursera, edX, or specialized programs can supplement formal education",
   "",
   "**Learning Path Recommendations:**",
   "- Start with programming fundamentals and mathematics",
   "- Move on to machine learning basics and algorithms",
   "- Gain experience with ML frameworks and libraries",
   "- Work on personal projects to build a portfolio",
   "- Participate in competitions on platforms like Kaggle",
   "- Contribute to open-source projects",
   "- Network with professionals in the field",
   "",
   "**Job Prospects and Career Growth:**",
   "- Machine Learning Engineers are in high demand across industries",
   "- Salary ranges are typically high, with median salaries well above average",
   "- Career progression can lead to Senior ML Engineer, ML Architect, or AI Research Scientist roles",
   "- Opportunities exist in tech companies, healthcare, finance, automotive, and many other sectors",
   "",
   "**Common Challenges and Solutions:**",
   "- Keeping up with rapidly evolving field: Dedicate time to continuous learning",
   "- Bridging theory and practice: Work on real-world projects",
   "- Handling large datasets: Learn distributed computing and optimization techniques",
   "- Explaining complex models: Develop communication skills to translate technical concepts",
   ""]

/-- Fallback summary text. -/
def summarizeFallback : String := String.intercalate "\n" summarizeFallbackLines

/-- The `Source i+1: item` block of the summarize prompt. -/
def summarizeFormatted (items : List String) : String :=
  String.intercalate "\n\n"
    (items.enum.map (fun p => "Source " ++ toString (p.1 + 1) ++ ": " ++ p.2))

/-- Prompt of `summarize_content` around the formatted source block. -/
def summarizePrompt (formatted : String) : String :=
  "Please summarize the following search results about becoming a machine learning engineer:\n\n"
  ++ formatted ++
  "\n\nProvide a comprehensive summary that covers:\n1. Required skills and knowledge\n2. Education and background needed\n3. Learning path recommendations\n4. Job prospects and career growth\n5. Common challenges and how to overcome them\n\nYour summary should be well-structured and informative.\n"

/-- Embedding of `summarize_content` on its documented list input: empty
input short-circuits to the sentinel before any client use; otherwise the
client response, the fallback text when the call raises, or the fallback
text without a client. -/
def summarize_content (env : Env) (search_results : List String) : String :=
  if search_results.isEmpty then noResultsSentinel
  else
    match env.complete with
    | none => summarizeFallback
    | some f =>
      match f (summarizePrompt (summarizeFormatted search_results)) with
      | Except.ok txt => txt
      | Except.error _ => summarizeFallback

/-- Completion prompts issued by `summarize_content`: none on empty input
or without a client. -/
def summarizeCalls (env : Env) (search_results : List String) : List String :=
  if search_results.isEmpty then []
  else
    match env.complete with
    | none => []
    | some _ => [summarizePrompt (summarizeFormatted search_results)]

/-- Behaviour of the dynamically typed call `summarize_content(result)` in
`ResearchAgent.research`, whose argument is the newline-join of the search
results (a string, not a list): Python truthiness makes only the empty
string short-circuit, and `enumerate` iterates the string character by
character in the prompt block. -/
def summarize_content_str (env : Env) (s : String) : String :=
  if s = "" then noResultsSentinel
  else
    match env.complete with
    | none => summarizeFallback
    | some f =>
      match f (summarizePrompt (summarizeFormatted (s.data.map (fun c => String.mk [c])))) with
      | Except.ok txt => txt
      | Except.error _ => summarizeFallback

/-! ## Stage 5: `critique_summary` (tools.py lines 267-328) -/

/-- Line list of the fallback critique text. -/
def critiqueFallbackLines : List String :=
  ["",
   "**Critique of the Summary**",
   "",
   "The summary provides a good overview of becoming a machine learning engineer, but has several areas for improvement:",
   "",
   "1. **Accuracy**: The information is generally accurate but lacks specific details about the depth of knowledge required in mathematics and statistics.",
   "",
   "2. **Comprehensiveness**: The summary misses some important aspects:",
   "   - No mention of cloud platforms (AWS, Azure, GCP) which are essential for deploying ML models",
   "   - Limited discussion of MLOps and deployment practices",
   "   - No information about soft skills like communication and teamwork",
   "   - Missing details about domain expertise importance",
   "",
   "3. **Structure**: The organization is logical but the sections could be better connected to show a progression from learning to career.",
   "",
   "4. **Clarity**: Some technical terms are used without explanation, which might confuse beginners.",
   "",
   "5. **Actionability**: While it provides general guidance, it lacks specific resources, courses, or tools that beginners should start with.",
   "",
   "**Suggestions for Improvement:**",
   "- Add specific learning resources and recommended courses",
   "- Include information about cloud platforms and MLOps",
   "- Discuss the importance of domain knowledge in specific industries",
   "- Provide a more detailed roadmap with timeframes",
   "- Add examples of entry-level projects beginners can build",
   ""]

/-- Fallback critique text. -/
def critiqueFallback : String := String.intercalate "\n" critiqueFallbackLines

/-- Prompt of `critique_summary`. -/
def critiquePrompt (summary : String) : String :=
  "Please critique the following summary about becoming a machine learning engineer:\n\n"
  ++ summary ++
  "\n\nEvaluate the summary based on:\n1. Accuracy and correctness of information\n2. Comprehensiveness (are any important aspects missing?)\n3. Structure and organization\n4. Clarity and readability\n5. Actionability (how useful is this for someone wanting to become a machine learning engineer?)\n\nProvide specific suggestions for improvement.\n"

/-- Embedding of `critique_summary`. -/
def critique_summary (env : Env) (summary : String) : String :=
  match env.complete with
  | none => critiqueFallback
  | some f =>
    match f (critiquePrompt summary) with
    | Except.ok txt => txt
    | Except.error _ => critiqueFallback

/-! ## Stage 6: `improve_summary` (tools.py lines 331-465) -/

/-- Line list of the fallback improved-summary text. -/
def improveFallbackLines : List String :=
  ["",
   "# Comprehensive Guide to Becoming a Machine Learning Engineer",
   "",
   "Becoming a successful Machine Learning Engineer requires a strategic approach to skill development, education, and practical experience. This guide provides a roadmap to help you navigate this exciting career path.",
   "",
   "## 1. Essential Technical Skills",
   "",
   "**Programming Proficiency:**",
   "- **Python**: The primary language for ML development (focus on NumPy, Pandas, Matplotlib)",
   "- **SQL**: For database interactions and data extraction",
   "- **Optional**: R, Java, or C++ for specific applications",
   "",
   "**Mathematics and Statistics:**",
   "- Linear Algebra: Understand vectors, matrices, and tensor operations",
   "- Calculus: Grasp derivatives, gradients, and optimization techniques",
   "- Probability and Statistics: Master statistical testing, distributions, and Bayesian thinking",
   "",
   "**Machine Learning Frameworks:**",
   "- TensorFlow and Keras: For building and deploying ML models",
   "- PyTorch: Popular for research and deep learning applications",
   "- Scikit-learn: For classical ML algorithms and preprocessing",
   "",
   "**Cloud and MLOps:**",
   "- AWS (SageMaker), Azure ML, or Google Cloud AI: For scalable ML deployment",
   "- Docker and Kubernetes: For containerization and orchestration",
   "- CI/CD for ML: Implementing automated testing and deployment pipelines",
   "",
   "## 2. Education and Learning Path",
   "",
   "**Formal Education Options:**",
   "- Bachelor" ++ apos ++ "s degree in Computer Science, Data Science, Mathematics, or related field",
   "- Master" ++ apos ++ "s or PhD for research-oriented positions or specialized roles",
   "- Bootcamps as an alternative or supplement to traditional education",
   "",
   "**Self-Learning Roadmap:**",
   "1. **Months 1-3**: Programming fundamentals and mathematics refresher",
   "   - Recommended: CS50 (Harvard), Mathematics for Machine Learning (Imperial College London)",
   "2. **Months 4-6**: Machine learning basics and algorithms",
   "   - Recommended: Andrew Ng" ++ apos ++ "s Machine Learning course, Fast.ai",
   "3. **Months 7-9**: Deep learning and specialized areas",
   "   - Recommended: Deep Learning Specialization (Coursera), Practical Deep Learning for Coders",
   "4. **Months 10-12**: Projects and portfolio building",
   "   - Focus on solving real problems in domains that interest you",
   "",
   "**Certifications Worth Pursuing:**",
   "- AWS Machine Learning Specialty",
   "- TensorFlow Developer Certificate",
   "- Microsoft Azure AI Engineer",
   "- Google Professional Machine Learning Engineer",
   "",
   "## 3. Building Practical Experience",
   "",
   "**Project Portfolio:**",
   "- Start with tutorial-based projects, then build original solutions",
   "- Include diverse projects: classification, regression, NLP, computer vision",
   "- Document your work thoroughly on GitHub with clean code and explanations",
   "",
   "**Practical Learning Opportunities:**",
   "- Kaggle competitions: Start with \"Getting Started\" competitions",
   "- Open-source contributions: Find beginner-friendly ML projects",
   "- Internships or freelance projects: Gain real-world experience",
   "",
   "**Networking and Community:**",
   "- Join ML communities: Reddit r/MachineLearning, Discord servers, local meetups",
   "- Attend conferences: NeurIPS, ICML, or local ML events",
   "- Connect with professionals on LinkedIn and Twitter",
   "",
   "## 4. Career Development",
   "",
   "**Job Search Strategy:**",
   "- Target entry-level positions: ML Engineer, Junior Data Scientist, AI Developer",
   "- Highlight projects relevant to the company" ++ apos ++ "s domain",
   "- Prepare for technical interviews with a focus on ML algorithms and coding challenges",
   "",
   "**Salary Expectations:**",
   "- Entry-level: $80,000-$110,000 (US average)",
   "- Mid-level: $110,000-$150,000",
   "- Senior-level: $150,000+ (can exceed $200,000 at top companies)",
   "",
   "**Career Progression:**",
   "- Junior ML Engineer → ML Engineer → Senior ML Engineer → Lead ML Engineer/Architect",
   "- Alternative paths: ML Research Scientist, ML Product Manager, AI Consultant",
   "",
   "## 5. Continuous Growth",
   "",
   "**Staying Current:**",
   "- Follow research papers on arXiv and conference publications",
   "- Subscribe to newsletters: Import AI, The Batch, ML Ops Roundup",
   "- Take advanced courses in emerging areas like reinforcement learning or GANs",
   "",
   "**Domain Specialization:**",
   "- Consider focusing on a specific industry: healthcare, finance, robotics, etc.",
   "- Develop domain expertise alongside technical skills",
   "- Understand the business context and value of ML applications",
   "",
   "**Soft Skills Development:**",
   "- Communication: Learn to explain complex concepts to non-technical stakeholders",
   "- Teamwork: Collaborate effectively with data engineers, product managers, and domain experts",
   "- Business acumen: Understand how ML creates value for organizations",
   "",
   "By following this comprehensive approach, you" ++ apos ++ "ll be well-positioned to build a successful career as a Machine Learning Engineer in this rapidly evolving field.",
   ""]

/-- Fallback improved-summary text. -/
def improveFallback : String := String.intercalate "\n" improveFallbackLines

/-- Prompt of `improve_summary`. -/
def improvePrompt (summary critique : String) : String :=
  "Please improve the following summary about becoming a machine learning engineer based on the critique provided:\n\nOriginal Summary:\n"
  ++ summary ++
  "\n\nCritique:\n"
  ++ critique ++
  "\n\nCreate an improved, comprehensive summary that addresses all the issues mentioned in the critique. The improved summary should be well-structured, accurate, and highly actionable for someone wanting to become a machine learning engineer.\n"

/-- Embedding of `improve_summary`.  `ResearchAgent.research` never reaches
this function (see `research` below), but it is part of the tools module. -/
def improve_summary (env : Env) (summary critique : String) : String :=
  match env.complete with
  | none => improveFallback
  | some f =>
    match f (improvePrompt summary critique) with
    | Except.ok txt => txt
    | Except.error _ => improveFallback

/-! ## PipelineController: `ResearchAgent` (research_agent.py) -/

/-- The `self.cache` dictionary of `ResearchAgent`, created once in
`__init__` (it belongs to the agent instance, not to a single `research`
call). -/
structure Cache where
  subtopics : List String
  expanded_queries : List String
  search_results : List String
  summary : String
  critique : String
  improved_summary : String

/-- The cache as `__init__` creates it. -/
def initCache : Cache :=
  { subtopics := []
    expanded_queries := []
    search_results := []
    summary := ""
    critique := ""
    improved_summary := "" }

/-- One entry of the reference block of `ResearchAgent.research`
(lines 99-106): a matched line becomes `f"{i+1}. [{title}]({link})"`, an
unmatched one `f"{i+1}. {result}"`, with `i` the `enumerate` index. -/
def formatReference (i : Nat) (result : String) : String :=
  match reMatchTitleUrl result with
  | some (t, link) => toString (i + 1) ++ ". [" ++ t ++ "](" ++ link ++ ")"
  | none => toString (i + 1) ++ ". " ++ result

/-- The reference block of `ResearchAgent.research`: format each of the
first 5 cached search results with its `enumerate` index (there is no URL
deduplication and no skipping; every considered entry is emitted). -/
def formatReferences (search_results : List String) : List String :=
  (search_results.take 5).enum.map (fun p => formatReference p.1 p.2)

/-- Embedding of `ResearchAgent.research` as a state-passing function over
the agent's cache, returning the final string and the updated cache.

The step loop dispatches on substrings of the step names.  The sixth step
name, "Improve the generated summary based on critique", contains the word
"critique", and the `elif "critique" in step.lower()` branch precedes the
`elif "improve" in step.lower()` branch: step 6 therefore re-runs the
critique branch.  `improve_summary` is never called and
`cache['improved_summary']` is never written.  Step 3 `extend`s
`cache['search_results']` instead of assigning it, and step 4 passes the
newline-join of the fresh results (a string) to `summarize_content`. -/
def research (env : Env) (cache : Cache) (topic : String) : String × Cache :=
  -- Step 1: "Break down the research topic"
  let subtopics := topic_breakdown env topic
  let cache := { cache with subtopics := subtopics }
  -- Step 2: "Generate related keywords, synonyms, and phrases for subtopics"
  let expanded_queries := query_expansion env cache.subtopics
  let cache := { cache with expanded_queries := expanded_queries }
  -- Step 3: "Perform a search query" (extend, not assign)
  let search_results := search env cache.expanded_queries 10
  let cache := { cache with search_results := cache.search_results ++ search_results }
  let result := String.intercalate "\n" search_results
  -- Step 4: "Please summarize the following content" (argument is `result`, a string)
  let summary := summarize_content_str env result
  let cache := { cache with summary := summary }
  -- Step 5: "Provide a critique of the generated summary"
  let critique := critique_summary env cache.summary
  let cache := { cache with critique := critique }
  -- Step 6: "Improve the generated summary based on critique" matches the
  -- critique branch first, so the critique runs again and no improvement step executes
  let critique2 := critique_summary env cache.summary
  let cache := { cache with critique := critique2 }
  -- Reference block over the first 5 cached search results
  let formatted_references := String.intercalate "\n" (formatReferences cache.search_results)
  (cache.improved_summary ++ "\n\nReferences:\n" ++ formatted_references, cache)

/-- The environment with every external dependency unavailable: no Together
client, no `YOU_API_KEY` (the search oracle is then never consulted). -/
def fallbackEnv : Env :=
  { complete := none
    youApiKey := false
    searchOracle := fun _ => SearchResp.err }

example : (research fallbackEnv initCache "Test Topic").2.search_results.length = 5 := by decide
example : (research fallbackEnv initCache "Test Topic").2.improved_summary = "" := by decide

/-! ## Supporting lemmas -/

/-- The search-call list is a prefix of the query list handed to the loop:
the loop issues the queries in order and stops early only on a raised call. -/
theorem searchCalls_prefix (oracle : String → SearchResp) :
    ∀ l : List String, searchCalls oracle l <+: l := by
  intro l
  induction l with
  | nil => simp [searchCalls]
  | cons q rest ih =>
    unfold searchCalls
    cases oracle q with
    | ok items => exact (List.prefix_cons_inj q).mpr ih
    | non200 => exact (List.prefix_cons_inj q).mpr ih
    | err => exact ⟨rest, rfl⟩

/-- The accumulated loop results are the concatenation of the per-query
contributions of the issued calls. -/
theorem searchLoop_eq_join (oracle : String → SearchResp) :
    ∀ l : List String,
      searchLoop oracle l = ((searchCalls oracle l).map (perQueryResults oracle)).flatten := by
  intro l
  induction l with
  | nil => simp [searchCalls, searchLoop]
  | cons q rest ih =>
    unfold searchCalls searchLoop
    cases h : oracle q with
    | ok items => simp [perQueryResults, h, ih]
    | non200 => simp [perQueryResults, h, ih]
    | err => simp [perQueryResults, h]

/-- A string containing the substring `"References:"` is non-empty. -/
theorem ne_empty_of_contains_refs (s : String) (h : pyContains s "References:") :
    s ≠ "" := by
  intro h0
  rw [h0] at h
  exact absurd h (by decide)

/-- The literal `"References:"` occurs in any string of the final-result
shape. -/
theorem refs_contained (a b : String) :
    pyContains (a ++ "\n\nReferences:\n" ++ b) "References:" := by
  unfold pyContains
  have h1 : ("References:" : String).data <:+: ("\n\nReferences:\n" : String).data := by decide
  have h2 : ("\n\nReferences:\n" : String).data <:+: (a ++ "\n\nReferences:\n" ++ b).data := by
    rw [String.data_append, String.data_append]
    exact List.infix_append a.data _ b.data
  exact h1.trans h2

/-! ## Claim C1 — reference-block deduplication -/

/-- C1 counterexample: on the input of the claim, the reference loop of
`ResearchAgent.research` emits all three entries — the duplicated URL is
emitted again with counter 2, and the claimed two-entry output is not
produced.  The output block contains two entries with the same URL. -/
theorem c1_reference_dedup_counterexample :
    formatReferences ["A - https://x.test/1", "A dup - https://x.test/1", "B"]
      = ["1. [A](https://x.test/1)", "2. [A dup](https://x.test/1)", "3. B"]
    ∧ formatReferences ["A - https://x.test/1", "A dup - https://x.test/1", "B"]
      ≠ ["1. [A](https://x.test/1)", "2. B"] := by
  constructor
  · decide
  · decide

/-- C1 amended: the reference block formats the first 5 entries with no URL
deduplication and no skipping: the 1-based counter is the `enumerate` index
over all considered entries, every considered entry is emitted (the output
length is `min 5` of the input length), and on the claim's input the output
is exactly the three entries shown. -/
theorem c1_reference_block_no_dedup :
    formatReferences ["A - https://x.test/1", "A dup - https://x.test/1", "B"]
      = ["1. [A](https://x.test/1)", "2. [A dup](https://x.test/1)", "3. B"]
    ∧ (∀ rs : List String, (formatReferences rs).length = min 5 rs.length) := by
  refine ⟨by decide, ?_⟩
  intro rs
  simp [formatReferences]

/-! ## Claim C2 — cache ownership and lifetime -/

/-- C2: the cache discipline of the claim does not hold.  On a fresh agent
with all dependencies unavailable, one `research("Test Topic")` call leaves
`improved_summary` unwritten (it keeps the `__init__` value `""` instead of
the refine stage's output), and a second call on the same agent extends
`search_results` from 5 to 10 entries instead of starting from an empty
cache. -/
theorem c2_cache_discipline_bug :
    (research fallbackEnv initCache "Test Topic").2.improved_summary = ""
    ∧ (research fallbackEnv initCache "Test Topic").2.improved_summary
        ≠ improve_summary fallbackEnv
            (research fallbackEnv initCache "Test Topic").2.summary
            (research fallbackEnv initCache "Test Topic").2.critique
    ∧ (research fallbackEnv initCache "Test Topic").2.search_results.length = 5
    ∧ (research fallbackEnv
        ((research fallbackEnv initCache "Test Topic").2) "Test Topic").2.search_results.length
        = 10 := by
  refine ⟨by decide, by decide, by decide, by decide⟩

/-! ## Claim C5 — fallback determinism -/

/-- C5: with every external dependency unavailable, a second
`research("Test Topic")` invocation on the same agent returns a string
byte-identical to the first one (and a fresh agent trivially returns the
same string as another fresh agent, the two computations being equal). -/
theorem c5_fallback_determinism :
    (research fallbackEnv ((research fallbackEnv initCache "Test Topic").2) "Test Topic").1
      = (research fallbackEnv initCache "Test Topic").1 := by
  decide

/-! ## Claim C7 — expand stage capped at 10 -/

/-- C7: `query_expansion` returns at most 10 items for every input list and
every behaviour of the completion dependency: the success path truncates to
the first 10, and every fallback path returns the fixed 10-entry list. -/
theorem c7_query_expansion_at_most_ten (env : Env) (subtopics : List String) :
    (query_expansion env subtopics).length ≤ 10 := by
  unfold query_expansion
  split
  · decide
  · split
    · decide
    · split
      · decide
      · exact List.length_take_le 10 _

/-! ## Claim C8 — summarize sentinel on empty input -/

/-- C8: on the empty result list `summarize_content` returns exactly the
sentinel and issues no completion call, for every environment. -/
theorem c8_summarize_empty_sentinel (env : Env) :
    summarize_content env [] = noResultsSentinel
    ∧ summarizeCalls env [] = [] :=
  ⟨rfl, rfl⟩

/-! ## Claim C9 — retrieve stage empty-result policy -/

/-- C9: the empty-result policy of `search` is split by input: an empty
query list returns `[]` with no call to the search endpoint, and a
non-empty query list whose loop accumulates zero results returns the canned
5-entry fallback set truncated to `max_results`.  Both paths are total—the
embedding returns a value for every input. -/
theorem c9_search_empty_policy :
    (∀ (env : Env) (mr : Nat),
      search env [] mr = [] ∧ searchCallsMade env [] = [])
    ∧ (∀ (env : Env) (queries : List String) (mr : Nat), queries ≠ [] →
        rawSearchResults env queries = [] →
        search env queries mr = searchFallback.take mr) := by
  constructor
  · intro env mr
    exact ⟨rfl, rfl⟩
  · intro env queries mr hne hraw
    simp [search, hne, hraw]

/-- C9 witness: with no `YOU_API_KEY` and the non-empty query list
`["q"]`, `search` returns the truncated fallback set. -/
theorem c9_search_empty_policy_witness :
    ((["q"] : List String) ≠ [])
    ∧ rawSearchResults fallbackEnv ["q"] = []
    ∧ search fallbackEnv ["q"] 10 = searchFallback.take 10 :=
  ⟨by decide, by decide,
   c9_search_empty_policy.2 fallbackEnv ["q"] 10 (by decide) (by decide)⟩

/-! ## Claim C3 — retrieve stage query discipline -/

/-- Environment whose search endpoint always answers 200 with an empty
result list, used to observe the issued queries. -/
def okEmptyEnv : Env :=
  { complete := none
    youApiKey := true
    searchOracle := fun _ => SearchResp.ok [] }

/-- Environment whose search endpoint always answers 200 with one valid
item. -/
def oneItemEnv : Env :=
  { complete := none
    youApiKey := true
    searchOracle := fun _ => SearchResp.ok [{ title := "T", url := "https://t.example/1" }] }

/-- C3 counterexample: for the query list `["B"]` the stage issues two
calls, and the first issued query is the hardcoded
`"how to become a machine learning engineer"`, which is not one of the
first 5 input items. -/
theorem c3_retrieve_counterexample :
    searchCallsMade okEmptyEnv ["B"] = [mlTopicQuery, "B"]
    ∧ ¬ mlTopicQuery ∈ (["B"] : List String).take 5 := by
  constructor
  · decide
  · decide

/-- C3 amended: the issued calls are a prefix of `queries_to_use` (so at
most one call per entry, in order, stopping early only on a raised call),
and `queries_to_use` consists of the first 5 input items possibly preceded
by the hardcoded topic query (inserted exactly when
"machine learning engineer" is absent from their lowercased join); each
query contributes at most 3 results, every kept result is formatted
`"title - url"`, and results with an empty (missing) title or url are
dropped. -/
theorem c3_retrieve_amended (env : Env) (queries : List String) :
    searchCallsMade env queries <+: queriesToUse queries
    ∧ (∀ q ∈ queriesToUse queries, q ∈ queries.take 5 ∨ q = mlTopicQuery)
    ∧ (queries ≠ [] → rawSearchResults env queries
        = ((searchCallsMade env queries).map (perQueryResults env.searchOracle)).flatten)
    ∧ (∀ q, (perQueryResults env.searchOracle q).length ≤ 3)
    ∧ (∀ q r, r ∈ perQueryResults env.searchOracle q →
        ∃ t u : String, t ≠ "" ∧ u ≠ "" ∧ r = t ++ " - " ++ u) := by
  refine ⟨?_, ?_, ?_, ?_, ?_⟩
  · unfold searchCallsMade
    split
    · exact List.nil_prefix
    · split
      · exact searchCalls_prefix env.searchOracle _
      · exact List.nil_prefix
  · intro q hq
    unfold queriesToUse at hq
    by_cases hc : pyContains (pyLower (String.intercalate " " (queries.take 5))) mlPhrase
    · rw [if_pos hc] at hq
      exact Or.inl hq
    · rw [if_neg hc] at hq
      rcases List.mem_cons.mp hq with h | h
      · exact Or.inr h
      · exact Or.inl h
  · intro hne
    unfold rawSearchResults searchCallsMade
    rw [if_neg hne]
    by_cases hk : env.youApiKey
    · rw [if_pos hk, if_pos hk]
      exact searchLoop_eq_join env.searchOracle _
    · rw [if_neg hk, if_neg hk]
      rfl
  · intro q
    unfold perQueryResults
    split
    · calc (List.map formatItem _).length
          = (List.filter _ (List.take 3 _)).length := List.length_map _ _
        _ ≤ (List.take 3 _).length := List.length_filter_le _ _
        _ ≤ 3 := List.length_take_le 3 _
    · simp
    · simp
  · intro q r hr
    unfold perQueryResults at hr
    split at hr
    · rcases List.mem_map.mp hr with ⟨it, hit, hfmt⟩
      have hp := (List.mem_filter.mp hit).2
      rw [Bool.and_eq_true, decide_eq_true_eq, decide_eq_true_eq] at hp
      exact ⟨it.title, it.url, hp.1, hp.2, hfmt.symm⟩
    · exact absurd hr (List.not_mem_nil r)
    · exact absurd hr (List.not_mem_nil r)

/-- C3 amended witness: concrete instances of the amended statement with
its hypotheses discharged. -/
theorem c3_retrieve_amended_witness :
    searchCallsMade oneItemEnv ["B"] <+: queriesToUse ["B"]
    ∧ (mlTopicQuery ∈ (["B"] : List String).take 5 ∨ mlTopicQuery = mlTopicQuery)
    ∧ rawSearchResults oneItemEnv ["B"]
        = ((searchCallsMade oneItemEnv ["B"]).map (perQueryResults oneItemEnv.searchOracle)).flatten
    ∧ (∃ t u : String, t ≠ "" ∧ u ≠ "" ∧ "T - https://t.example/1" = t ++ " - " ++ u) :=
  ⟨(c3_retrieve_amended oneItemEnv ["B"]).1,
   (c3_retrieve_amended oneItemEnv ["B"]).2.1 mlTopicQuery (by decide),
   (c3_retrieve_amended oneItemEnv ["B"]).2.2.1 (by decide),
   (c3_retrieve_amended oneItemEnv ["B"]).2.2.2.2 "B" "T - https://t.example/1" (by decide)⟩

/-! ## Claim C4 — shape of the research output -/

/-- C4: for every environment, cache state and non-empty topic,
`research` returns the cached `improved_summary` followed by
`"\n\nReferences:\n"` followed by the newline-joined reference block over
the cached search results; the output contains the literal `"References:"`
and is non-empty. -/
theorem c4_research_output_shape (env : Env) (cache : Cache) (topic : String)
    (_htopic : topic ≠ "") :
    (research env cache topic).1
      = (research env cache topic).2.improved_summary ++ "\n\nReferences:\n"
        ++ String.intercalate "\n" (formatReferences (research env cache topic).2.search_results)
    ∧ pyContains (research env cache topic).1 "References:"
    ∧ (research env cache topic).1 ≠ "" := by
  refine ⟨rfl, ?_, ?_⟩
  · exact refs_contained _ _
  · exact ne_empty_of_contains_refs _ (refs_contained _ _)

/-- C4 witness: the shape property instantiated at the all-fallback
environment, a fresh cache and the topic "Test Topic". -/
theorem c4_research_output_shape_witness :
    (("Test Topic" : String) ≠ "")
    ∧ pyContains (research fallbackEnv initCache "Test Topic").1 "References:"
    ∧ (research fallbackEnv initCache "Test Topic").1 ≠ "" :=
  ⟨by decide,
   (c4_research_output_shape fallbackEnv initCache "Test Topic" (by decide)).2.1,
   (c4_research_output_shape fallbackEnv initCache "Test Topic" (by decide)).2.2⟩

/-! ## Claim C6 — round-trip of formatting and extraction -/

/-- With any head other than `h`, the url pattern cannot match. -/
theorem urlMatch_head_ne (c : Char) (l : List Char) (h : c ≠ 'h') :
    urlMatch (c :: l) = none := by
  unfold urlMatch urlTry
  have h8 : ¬ ((c :: l).take httpsChars.length = httpsChars) := by
    simp only [httpsChars, List.length_cons, List.length_nil, List.take_succ_cons]
    intro heq
    injection heq with h1 _
    exact h h1
  have h7 : ¬ ((c :: l).take httpChars.length = httpChars) := by
    simp only [httpChars, List.length_cons, List.length_nil, List.take_succ_cons]
    intro heq
    injection heq with h1 _
    exact h h1
  rw [if_neg h8, if_neg h7]

/-- A whitespace-free non-empty remainder after `https://` makes the url
pattern match the whole input. -/
theorem urlMatch_https (rest : List Char) (hne : rest ≠ [])
    (hns : ∀ c ∈ rest, isPySpace c = false) :
    urlMatch (httpsChars ++ rest) = some (httpsChars ++ rest) := by
  have htw : ((httpsChars ++ rest).drop httpsChars.length).takeWhile (fun c => !isPySpace c)
      = rest := by
    rw [List.drop_left]
    exact List.takeWhile_eq_self_iff.mpr (by intro x hx; simp [hns x hx])
  unfold urlMatch urlTry
  rw [List.take_left, if_pos rfl]
  simp only [htw]
  rw [if_neg hne]

/-- A whitespace-free non-empty remainder after `http://` makes the url
pattern match the whole input (the `https://` alternative fails at the
fifth character). -/
theorem urlMatch_http (rest : List Char) (hne : rest ≠ [])
    (hns : ∀ c ∈ rest, isPySpace c = false) :
    urlMatch (httpChars ++ rest) = some (httpChars ++ rest) := by
  rcases rest with _ | ⟨r0, r'⟩
  · exact absurd rfl hne
  have h8 : ¬ ((httpChars ++ r0 :: r').take httpsChars.length = httpsChars) := by
    simp [httpsChars, httpChars, List.take_append_eq_append_take]
  have htw : ((httpChars ++ r0 :: r').drop httpChars.length).takeWhile (fun c => !isPySpace c)
      = r0 :: r' := by
    rw [List.drop_left]
    exact List.takeWhile_eq_self_iff.mpr (by intro x hx; simp [hns x hx])
  unfold urlMatch urlTry
  rw [if_neg h8, List.take_left, if_pos rfl]
  simp only [htw]
  rw [if_neg (by simp : (r0 :: r' : List Char) ≠ [])]

/-- Lazy-scan characterisation: when the title part contains no " - " and
no newline and the url part matches in full, the scanner matches exactly at
the separator, capturing the title accumulated so far and the whole url. -/
theorem matchFrom_title_sep_url (u : List Char) (hu : urlMatch u = some u) :
    ∀ t acc : List Char, ¬ (sepChars <:+: t) → '\n' ∉ t →
      matchFrom acc ((t ++ sepChars) ++ u) = some (acc ++ t, u) := by
  intro t
  induction t with
  | nil =>
    intro acc _ _
    simp only [List.nil_append, List.append_nil]
    show matchFrom acc (' ' :: '-' :: ' ' :: u) = some (acc, u)
    have hcond : (' ' :: '-' :: ' ' :: u).take 3 = sepChars := by simp [sepChars]
    unfold matchFrom
    rw [if_pos hcond]
    simp only [List.drop_succ_cons, List.drop_zero]
    rw [hu]
  | cons a t' ih =>
    intro acc h hnl
    have ha : ¬ (a = '\n') := by
      intro hh
      subst hh
      exact hnl (List.mem_cons_self _ _)
    have ht' : ¬ (sepChars <:+: t') := fun hh => h (List.infix_cons hh)
    have hnl' : '\n' ∉ t' := fun hh => hnl (List.mem_cons_of_mem a hh)
    have htail : matchFrom (acc ++ [a]) ((t' ++ sepChars) ++ u) = some (acc ++ a :: t', u) := by
      rw [ih (acc ++ [a]) ht' hnl']
      simp
    rcases t' with _ | ⟨b, t''⟩
    · show matchFrom acc (a :: ' ' :: '-' :: ' ' :: u) = some (acc ++ [a], u)
      have hcond : ¬ ((a :: ' ' :: '-' :: ' ' :: u).take 3 = sepChars) := by
        simp [sepChars]
      unfold matchFrom
      rw [if_neg hcond, if_neg ha]
      simpa using htail
    rcases t'' with _ | ⟨c', t₃⟩
    · show matchFrom acc (a :: b :: ' ' :: '-' :: ' ' :: u) = some (acc ++ [a, b], u)
      by_cases hC : ((a :: b :: ' ' :: '-' :: ' ' :: u).take 3 = sepChars)
      · unfold matchFrom
        rw [if_pos hC]
        simp only [List.drop_succ_cons, List.drop_zero]
        rw [urlMatch_head_ne '-' (' ' :: u) (by decide)]
        simpa using htail
      · unfold matchFrom
        rw [if_neg hC, if_neg ha]
        simpa using htail
    · show matchFrom acc (a :: (b :: (c' :: ((t₃ ++ sepChars) ++ u)))) = some (acc ++ a :: b :: c' :: t₃, u)
      by_cases hC : ((a :: (b :: (c' :: ((t₃ ++ sepChars) ++ u)))).take 3 = sepChars)
      · exfalso
        have hC' : [a, b, c'] = sepChars := by simpa using hC
        exact h ⟨[], t₃, by simp [← hC']⟩
      · unfold matchFrom
        rw [if_neg hC, if_neg ha]
        simpa using htail

/-- String is determined by its character list. -/
theorem stringMkData (s : String) : String.mk s.data = s := by
  cases s
  rfl

/-- C6 counterexample: the round-trip fails for a title containing a
newline.  `re.match` without `re.DOTALL` cannot let the lazy group cross
`'\n'`, so on `"A\nB - https://x.test/1"` the pattern does not match and
`extract_title_and_link` returns `(input, "#")`, not the pair
`("A\nB", "https://x.test/1")` — although the title contains no " - " and
the url fully matches `https?://\S+`. -/
theorem c6_roundtrip_counterexample :
    (¬ pyContains "A\nB" " - ")
    ∧ validUrl "https://x.test/1" = true
    ∧ extract_title_and_link ("A\nB" ++ " - " ++ "https://x.test/1")
        = ("A\nB - https://x.test/1", "#")
    ∧ extract_title_and_link ("A\nB" ++ " - " ++ "https://x.test/1")
        ≠ ("A\nB", "https://x.test/1") := by
  refine ⟨by decide, by decide, by decide, by decide⟩

/-- C6 amended: formatting `(title, url)` as `f"{title} - {url}"` and then
running `extract_title_and_link` recovers exactly `(title, url)`, for every
title containing neither " - " nor a newline and every url fully matching
`https?://\S+`. -/
theorem c6_extract_format_roundtrip (title url : String)
    (hsep : ¬ pyContains title " - ")
    (hnl : ¬ pyContains title "\n")
    (hurl : validUrl url = true) :
    extract_title_and_link (title ++ " - " ++ url) = (title, url) := by
  have hdata : (" - " : String).data = sepChars := rfl
  unfold validUrl at hurl
  rw [Bool.and_eq_true] at hurl
  obtain ⟨hall, hsch⟩ := hurl
  have hns : ∀ c ∈ url.data, isPySpace c = false := by
    intro c hc
    have := List.all_eq_true.mp hall c hc
    simpa using this
  rw [Bool.or_eq_true, Bool.and_eq_true, Bool.and_eq_true] at hsch
  simp only [beq_iff_eq, decide_eq_true_eq] at hsch
  have hu : urlMatch url.data = some url.data := by
    rcases hsch with ⟨h8, hlen⟩ | ⟨h7, hlen⟩
    · have hdec : url.data = httpsChars ++ url.data.drop 8 := by
        conv_lhs => rw [← List.take_append_drop 8 url.data]
        rw [h8]
      rw [hdec]
      apply urlMatch_https
      · apply List.ne_nil_of_length_pos
        rw [List.length_drop]
        omega
      · intro c hc
        exact hns c (List.mem_of_mem_drop hc)
    · have hdec : url.data = httpChars ++ url.data.drop 7 := by
        conv_lhs => rw [← List.take_append_drop 7 url.data]
        rw [h7]
      rw [hdec]
      apply urlMatch_http
      · apply List.ne_nil_of_length_pos
        rw [List.length_drop]
        omega
      · intro c hc
        exact hns c (List.mem_of_mem_drop hc)
  have hsep' : ¬ (sepChars <:+: title.data) := by
    intro hh
    exact hsep (by rw [pyContains, hdata]; exact hh)
  have hsplit : (title ++ " - " ++ url).data = (title.data ++ sepChars) ++ url.data := by
    rw [String.data_append, String.data_append, hdata]
  have hnl' : '\n' ∉ title.data := by
    intro hm
    obtain ⟨s, t, hst⟩ := List.append_of_mem hm
    exact hnl ⟨s, t, by rw [hst]; simp⟩
  unfold extract_title_and_link reMatchTitleUrl
  rw [hsplit, matchFrom_title_sep_url url.data hu title.data [] hsep' hnl']
  simp [stringMkData]

/-- C6 witness: the round-trip at the concrete pair
`("A", "https://x.test/1")`, with all three hypotheses discharged. -/
theorem c6_extract_format_roundtrip_witness :
    (¬ pyContains "A" " - ")
    ∧ (¬ pyContains "A" "\n")
    ∧ validUrl "https://x.test/1" = true
    ∧ extract_title_and_link ("A" ++ " - " ++ "https://x.test/1") = ("A", "https://x.test/1") :=
  ⟨by decide, by decide, by decide,
   c6_extract_format_roundtrip "A" "https://x.test/1" (by decide) (by decide) (by decide)⟩

/-! ## Claim C10 — agreement and divergence of the two helpers -/

/-- C10: the two duplicated helpers share the regex; on a matching string
they return the same `(title, url)` pair, and on a non-matching string the
tools copy returns `(input, "#")` while the helpers copy returns
`(None, None)`. -/
theorem c10_extract_helpers_agree (s : String) :
    (∀ t u : String, reMatchTitleUrl s = some (t, u) →
      extract_title_and_link s = (t, u)
      ∧ helpers_extract_title_and_link s = (some t, some u))
    ∧ (reMatchTitleUrl s = none →
      extract_title_and_link s = (s, "#")
      ∧ helpers_extract_title_and_link s = (none, none)) := by
  constructor
  · intro t u h
    unfold extract_title_and_link helpers_extract_title_and_link
    rw [h]
    exact ⟨rfl, rfl⟩
  · intro h
    unfold extract_title_and_link helpers_extract_title_and_link
    rw [h]
    exact ⟨rfl, rfl⟩

/-- C10 witness: both helpers evaluated on one matching and one
non-matching concrete input through the agreement theorem. -/
theorem c10_extract_helpers_agree_witness :
    (extract_title_and_link "Introduction to LLMs - https://example.com/intro"
        = ("Introduction to LLMs", "https://example.com/intro")
      ∧ helpers_extract_title_and_link "Introduction to LLMs - https://example.com/intro"
        = (some "Introduction to LLMs", some "https://example.com/intro"))
    ∧ (extract_title_and_link "No link here" = ("No link here", "#")
      ∧ helpers_extract_title_and_link "No link here" = (none, none)) :=
  ⟨(c10_extract_helpers_agree "Introduction to LLMs - https://example.com/intro").1
     "Introduction to LLMs" "https://example.com/intro" (by decide),
   (c10_extract_helpers_agree "No link here").2 (by decide)⟩
